import Mathlib

/-!
Shallow embedding of `afqinsight/cnn.py` (the `CNN` scikit-learn-style
estimator): construction-time parameter validation, the `_preprocess`
routine (shape check, NaN-target masking, column-wise imputation, reshape
to a (samples, nodes, channels) tensor), tuner selection, `fit`, `predict`
and `score`.

Python floats that may be NaN are modelled as `Option ℚ` (`none` = NaN,
`some q` = a finite value); finite float arithmetic is modelled over `ℚ`.
The 2-D numpy feature matrix is a list of rows together with its declared
column count (`shape[1]`).  Calls into third-party libraries
(`sklearn.impute.SimpleImputer`, `sklearn.utils.check_X_y`,
`sklearn.metrics.r2_score`, `keras`) are modelled from their documented
behaviour at the call sites used by this module; the keras model produced
by training is an opaque function parameter, and `train_test_split` is an
opaque partition parameter, since their internals are outside this
repository.
-/

namespace AFQ

/-- A Python scalar value, as far as the constructor's `isinstance` checks
can observe it.  `vbool` is separate because Python's `bool` is a subclass
of `int` (so it passes `isinstance(x, int)`) but not of `float` or `str`. -/
inductive PyVal where
  | vint (n : ℤ)
  | vfloat (q : ℚ)
  | vstr (s : String)
  | vbool (b : Bool)
  | vnone
deriving DecidableEq, Repr

/-- `isinstance(v, int)` extraction: Python ints and bools. -/
def PyVal.asPyInt? : PyVal → Option ℤ
  | .vint n => some n
  | .vbool b => some (if b then 1 else 0)
  | _ => none

/-- `isinstance(v, float)` extraction. -/
def PyVal.asFloat? : PyVal → Option ℚ
  | .vfloat q => some q
  | _ => none

/-- `isinstance(v, str)` extraction. -/
def PyVal.asStr? : PyVal → Option String
  | .vstr s => some s
  | _ => none

/-- `isinstance(v, str) or v is None` extraction, used for the `tuner`
parameter: `some (some s)` for a string, `some none` for `None`. -/
def PyVal.asTuner? : PyVal → Option (Option String)
  | .vstr s => some (some s)
  | .vnone => some none
  | _ => none

/-- Python exceptions raised by this module: `TypeError`, `ValueError`
(with their message) and sklearn's `NotFittedError`. -/
inductive Err where
  | typeError (msg : String)
  | valueError (msg : String)
  | notFitted
deriving DecidableEq, Repr

/-- The three keras-tuner classes `_get_tuner` can instantiate. -/
inductive TunerKind where
  | hyperband
  | bayesian
  | random
deriving DecidableEq, Repr

/-- Which model-construction path `fit` took. -/
inductive BuildPath where
  | basic
  | tuned (k : TunerKind)
deriving DecidableEq, Repr

/-- A float entry of a numpy array that may be NaN (`none`). -/
abbrev PItem := Option ℚ

/-- An opaque trained keras model: maps the preprocessed
(samples, nodes, channels) tensor to a vector of predictions. -/
abbrev Model := List (List (List ℚ)) → List ℚ

/-- The state of a `CNN` instance: the attributes set by `__init__`, plus
`is_fitted_` (an attribute that exists only after a successful `fit`;
modelled as a Bool that starts `false`) and the trained model handle. -/
structure CNNState where
  n_nodes : ℤ
  n_channels : ℤ
  layers : ℤ
  max_epochs : ℤ
  batch_size : ℤ
  tuner : Option String
  test_size : ℚ
  strategy : String
  random_state : ℤ
  directory : Option String
  project_name : Option String
  is_fitted_ : Bool
  model_ : Option Model

/-- A 2-D numpy array of possibly-NaN floats: the declared column count
(`shape[1]`) and the list of rows. -/
structure NPMat where
  ncols : ℕ
  data : List (List PItem)

/-- Well-formedness of the 2-D array: every row has `ncols` entries
(numpy arrays are rectangular). -/
def NPMat.WF (X : NPMat) : Prop := ∀ r ∈ X.data, r.length = X.ncols

instance (X : NPMat) : Decidable X.WF := by
  unfold NPMat.WF; infer_instance

/-- Arithmetic mean, as computed by `SimpleImputer(strategy="mean")`. -/
def listMean (vs : List ℚ) : ℚ := vs.sum / vs.length

/-- Median with even-length averaging, as computed by numpy's median
(used by `SimpleImputer(strategy="median")`). -/
def listMedian (vs : List ℚ) : ℚ :=
  let s := vs.mergeSort (fun a b => decide (a ≤ b))
  let n := s.length
  if n % 2 = 1 then s.getD (n / 2) 0
  else (s.getD (n / 2 - 1) 0 + s.getD (n / 2) 0) / 2

/-- The per-column statistic of `SimpleImputer` for the given strategy.
Only "mean" and "median" are reachable from `CNN` (the constructor
restricts `strategy` to median/mean/knn, and "knn" is rejected by
`SimpleImputer` itself before any statistic is computed). -/
def npStat (strategy : String) (vs : List ℚ) : ℚ :=
  if strategy = "mean" then listMean vs
  else if strategy = "median" then listMedian vs
  else 0

/-- The statistic of one column: `none` when the column has no observed
value (SimpleImputer then drops the column on transform). -/
def colStat? (strategy : String) (col : List PItem) : Option ℚ :=
  let vs := col.filterMap id
  if vs.isEmpty then none else some (npStat strategy vs)

/-- Column `j` of a row-major matrix (out-of-range entries read as NaN). -/
def getCol (Xd : List (List PItem)) (j : ℕ) : List PItem :=
  Xd.map (fun r => r.getD j none)

/-- `X[nan_mask, :]`: keep the rows whose `y` entry is not NaN. -/
def maskRows (Xd : List (List PItem)) (y : List PItem) : List (List PItem) :=
  ((Xd.zip y).filter (fun p => p.2.isSome)).map Prod.fst

/-- `y[nan_mask]`: the non-NaN target values. -/
def maskY (y : List PItem) : List ℚ := y.filterMap id

/-- The feature rows that survive the NaN-target mask (`_preprocess` only
masks when `y` is given). -/
def maskedInput (Xd : List (List PItem)) (y? : Option (List PItem)) : List (List PItem) :=
  match y? with
  | some y => maskRows Xd y
  | none => Xd

/-- Strategies accepted by `sklearn.impute.SimpleImputer`. -/
def allowedStrategies : List String := ["mean", "median", "most_frequent", "constant"]

/-- The column statistics learned by `imp.fit(X)`. -/
def imputerStats (strategy : String) (ncols : ℕ) (X1 : List (List PItem)) : List (Option ℚ) :=
  (List.range ncols).map (fun j => colStat? strategy (getCol X1 j))

/-- `imp.transform` applied to one row: keep the columns with an observed
statistic, substituting the column statistic for NaN entries. -/
def imputeRow (stats : List (Option ℚ)) (kept : List ℕ) (r : List PItem) : List ℚ :=
  kept.map (fun j => (r.getD j none).getD ((stats.getD j none).getD 0))

/-- Model of `SimpleImputer(strategy=...).fit(X)` then `transform(X)` as
used in `_preprocess`: rejects unknown strategies and empty inputs (sklearn
raises ValueError in both cases), learns one statistic per column, and
drops columns whose statistic is undefined (all-NaN columns).  Returns the
imputed matrix and its resulting column count. -/
def imputerFitTransform (strategy : String) (ncols : ℕ) (X1 : List (List PItem)) :
    Except Err (List (List ℚ) × ℕ) :=
  if strategy ∉ allowedStrategies then
    .error (.valueError "SimpleImputer does not recognize this strategy")
  else if X1.isEmpty then
    .error (.valueError "Found array with 0 samples")
  else
    let stats := imputerStats strategy ncols X1
    let kept := (List.range ncols).filter (fun j => (stats.getD j none).isSome)
    .ok (X1.map (imputeRow stats kept), kept.length)

/-- One row of `np.swapaxes(X.reshape((n, n_channels, n_nodes)), 1, 2)`:
reshape and swapaxes are strided views of the row-major buffer, so element
(node n, channel c) of the result reads flat offset `c * n_nodes + n` of
the row. -/
def npReshapeSwapRow (row : List ℚ) (n_channels n_nodes : ℕ) : List (List ℚ) :=
  (List.range n_nodes).map (fun n =>
    (List.range n_channels).map (fun c => row.getD (c * n_nodes + n) 0))

/-- Body of `CNN._preprocess` after the NaN-target mask has been applied:
the declared-shape check (which reads only `X.shape[1]`, so it is stated
first exactly as in the source), the imputer, the `check_X_y` validation
(run only when `y` is given: consistent lengths and at least one sample),
and the reshape (numpy rejects negative dimensions and any total-size
mismatch between the imputed matrix and `(n, n_channels, n_nodes)`). -/
def preprocessCore (st : CNNState) (ncols : ℕ) (X1 : List (List PItem))
    (y1? : Option (List ℚ)) : Except Err (List (List (List ℚ)) × Option (List ℚ)) :=
  if st.n_nodes * st.n_channels ≠ (ncols : ℤ) then
    .error (.valueError "The product n_nodes and n_channels is not the correct shape.")
  else
    match imputerFitTransform st.strategy ncols X1 with
    | .error e => .error e
    | .ok (X2, nc2) =>
      if y1?.isSome ∧ ((y1?.getD []).length ≠ X2.length ∨ X2.length = 0) then
        .error (.valueError "check_X_y failed on inconsistent or empty inputs")
      else if st.n_channels < 0 ∨ st.n_nodes < 0 then
        .error (.valueError "negative dimensions are not allowed")
      else if nc2 ≠ st.n_channels.toNat * st.n_nodes.toNat then
        .error (.valueError "cannot reshape array into the requested shape")
      else
        .ok (X2.map (fun r => npReshapeSwapRow r st.n_channels.toNat st.n_nodes.toNat), y1?)

/-- `CNN._preprocess(X, y=None)`: shape check, NaN-target mask (only when
`y` is given), fresh imputer fit on the given data itself, `check_X_y`,
and the reshape/swapaxes to (samples, nodes, channels). -/
def CNN.preprocess (st : CNNState) (X : NPMat) (y? : Option (List PItem)) :
    Except Err (List (List (List ℚ)) × Option (List ℚ)) :=
  preprocessCore st X.ncols (maskedInput X.data y?) (y?.map maskY)

/-- `CNN.__init__`: validates each parameter in source order (`n_nodes`,
`n_channels`, `layers`, `max_epochs`, `batch_size`, `tuner`, `test_size`,
`strategy`, `random_state`), raising `TypeError` for a wrong scalar type
and `ValueError` for an unrecognized `strategy` string; `directory`,
`project_name` (and the `tuner_kwargs` pass-through, not modelled) are
stored without validation.  `test_size` gets no range check. -/
def CNN.init (n_nodes n_channels max_epochs batch_size tuner layers test_size
    strategy random_state : PyVal) (directory project_name : Option String) :
    Except Err CNNState :=
  match n_nodes.asPyInt? with
  | none => .error (.typeError "Parameter n_nodes must be an integer.")
  | some nn =>
    match n_channels.asPyInt? with
    | none => .error (.typeError "Parameter n_channels must be an integer.")
    | some nc =>
      match layers.asPyInt? with
      | none => .error (.typeError "Parameter layers must be an integer.")
      | some ly =>
        match max_epochs.asPyInt? with
        | none => .error (.typeError "Parameter max_epochs must be an integer.")
        | some me =>
          match batch_size.asPyInt? with
          | none => .error (.typeError "Parameter batch_size must be an integer.")
          | some bs =>
            match tuner.asTuner? with
            | none => .error (.typeError "Parameter tuner must be str.")
            | some tu =>
              match test_size.asFloat? with
              | none => .error (.typeError "Parameter test_size must be a float.")
              | some ts =>
                match strategy.asStr? with
                | none => .error (.typeError "Parameter strategy must be a string.")
                | some sg =>
                  if sg ∈ ["median", "mean", "knn"] then
                    match random_state.asPyInt? with
                    | none => .error (.typeError "Parameter random_state must be an int.")
                    | some rs =>
                      .ok { n_nodes := nn, n_channels := nc, layers := ly,
                            max_epochs := me, batch_size := bs, tuner := tu,
                            test_size := ts, strategy := sg, random_state := rs,
                            directory := directory, project_name := project_name,
                            is_fitted_ := false, model_ := none }
                  else
                    .error (.valueError "Parameter strategy must be median, mean, or knn.")

/-- `ModelBuilder._get_tuner`: maps the `class_type` string to the
keras-tuner class to instantiate; any other string raises ValueError, and
a non-string raises a bare TypeError. -/
def ModelBuilder.getTuner (class_type : Option String) : Except Err TunerKind :=
  match class_type with
  | some s =>
    if s = "hyperband" then .ok .hyperband
    else if s = "bayesian" then .ok .bayesian
    else if s = "random" then .ok .random
    else .error (.valueError "tuner parameter expects hyperband, bayesian, or random")
  | none => .error (.typeError "")

/-- An opaque model of `sklearn.model_selection.train_test_split`: given
the preprocessed tensor, targets, `test_size` and `random_state`, produce
(X_train, X_test, y_train, y_test).  The shuffling is internal to sklearn
and no claim depends on it, so `fit` takes the partition as a parameter. -/
abbrev SplitFn := List (List (List ℚ)) → List ℚ → ℚ → ℤ →
  (List (List (List ℚ)) × List (List (List ℚ)) × List ℚ × List ℚ)

/-- `CNN.fit`: preprocess (with targets), split, then either build the
hand-specified basic architecture (`tuner is None`) or instantiate the
requested keras tuner and build a tuned model.  Training itself is keras
code, so the trained model handle `tm` is an opaque parameter; `fit`
records which construction path was taken and marks the estimator fitted. -/
def CNN.fit (tm : Model) (split : SplitFn) (st : CNNState) (X : NPMat)
    (y : List PItem) : Except Err (CNNState × BuildPath) :=
  match CNN.preprocess st X (some y) with
  | .error e => .error e
  | .ok (X3, y1?) =>
    let y1 := y1?.getD []
    let _parts := split X3 y1 st.test_size st.random_state
    match st.tuner with
    | none => .ok ({ st with is_fitted_ := true, model_ := some tm }, .basic)
    | some s =>
      match ModelBuilder.getTuner (some s) with
      | .error e => .error e
      | .ok k => .ok ({ st with is_fitted_ := true, model_ := some tm }, .tuned k)

/-- `CNN.predict`: preprocesses `X` first, then `check_is_fitted` (raising
`NotFittedError` when `fit` has not completed), then the forward pass of
the stored model.  The `model_ = none` fallback is unreachable after a
successful fit, mirroring the attribute access in the source. -/
def CNN.predict (st : CNNState) (X : NPMat) : Except Err (List ℚ) :=
  match CNN.preprocess st X none with
  | .error e => .error e
  | .ok r =>
    if st.is_fitted_ then
      match st.model_ with
      | some m => .ok (m r.1)
      | none => .error (.valueError "model_ is None")
    else .error .notFitted

/-- Model of `sklearn.metrics.r2_score`: rejects inputs of different
lengths (`check_consistent_length`), otherwise returns
`1 - ss_res / ss_tot`, with sklearn's conventions for a constant `y_true`
(score 1 when the residuals also vanish, otherwise 0). -/
def r2Score (yTrue yPred : List ℚ) : Except Err ℚ :=
  if yTrue.length ≠ yPred.length then
    .error (.valueError "Found input variables with inconsistent numbers of samples")
  else
    let ybar : ℚ := yTrue.sum / yTrue.length
    let ssRes : ℚ := ((yTrue.zip yPred).map (fun p => (p.1 - p.2) ^ 2)).sum
    let ssTot : ℚ := (yTrue.map (fun v => (v - ybar) ^ 2)).sum
    .ok (if ssTot = 0 then (if ssRes = 0 then 1 else 0) else 1 - ssRes / ssTot)

/-- `CNN.score`: masks NaN entries out of `y_test` only (the source does
not mask `y_hat`) and calls `r2_score` on the result against the full
`y_hat`. -/
def CNN.score (y_test : List PItem) (y_hat : List ℚ) : Except Err ℚ :=
  r2Score (maskY y_test) y_hat

/-! ### Helper lemmas -/

lemma getD_map_range {α : Type} (f : ℕ → α) {j m : ℕ} (h : j < m) (d : α) :
    ((List.range m).map f).getD j d = f j := by
  simp [List.getD_eq_getElem?_getD, List.getElem?_map, List.getElem?_range h]

lemma getD_map_of_lt {α β : Type} (f : α → β) (l : List α) {i : ℕ}
    (h : i < l.length) (d : β) (d' : α) :
    (l.map f).getD i d = f (l.getD i d') := by
  simp [List.getD_eq_getElem?_getD, List.getElem?_map, List.getElem?_eq_getElem h]

lemma getD_mem {α : Type} (l : List α) {i : ℕ} (h : i < l.length) (d : α) :
    l.getD i d ∈ l := by
  simp [List.getD_eq_getElem?_getD, List.getElem?_eq_getElem h]

lemma imputerStats_getD (s : String) (ncols : ℕ) (X1 : List (List PItem))
    {j : ℕ} (h : j < ncols) :
    (imputerStats s ncols X1).getD j none = colStat? s (getCol X1 j) := by
  unfold imputerStats
  exact getD_map_range _ h _

lemma kept_eq_range (s : String) (ncols : ℕ) (X1 : List (List PItem))
    (hstats : ∀ j < ncols, (colStat? s (getCol X1 j)).isSome) :
    (List.range ncols).filter
      (fun j => ((imputerStats s ncols X1).getD j none).isSome) = List.range ncols := by
  rw [List.filter_eq_self]
  intro j hj
  rw [List.mem_range] at hj
  rw [imputerStats_getD s ncols X1 hj]
  exact hstats j hj

lemma imputerFitTransform_ok (s : String) (ncols : ℕ) (X1 : List (List PItem))
    (hs : s ∈ allowedStrategies) (hne : X1 ≠ [])
    (hstats : ∀ j < ncols, (colStat? s (getCol X1 j)).isSome) :
    imputerFitTransform s ncols X1 =
      .ok (X1.map (imputeRow (imputerStats s ncols X1) (List.range ncols)), ncols) := by
  unfold imputerFitTransform
  rw [if_neg (by simp [hs]), if_neg (by simp [hne])]
  simp only [kept_eq_range s ncols X1 hstats, List.length_range]

/-- If the shape check, imputer and reshape preconditions all hold, the
core of `_preprocess` succeeds and returns the masked rows, imputed with
this matrix's own column statistics, reshaped to (nodes, channels). -/
lemma preprocessCore_ok (st : CNNState) (nd ch : ℕ) (X1 : List (List PItem))
    (y1? : Option (List ℚ))
    (hnd : st.n_nodes = (nd : ℤ)) (hch : st.n_channels = (ch : ℤ))
    (hs : st.strategy ∈ allowedStrategies) (hne : X1 ≠ [])
    (hstats : ∀ j < ch * nd, (colStat? st.strategy (getCol X1 j)).isSome)
    (hy : ∀ y1, y1? = some y1 → y1.length = X1.length) :
    preprocessCore st (ch * nd) X1 y1? =
      .ok (X1.map (fun r => npReshapeSwapRow
            (imputeRow (imputerStats st.strategy (ch * nd) X1) (List.range (ch * nd)) r)
            ch nd), y1?) := by
  unfold preprocessCore
  rw [if_neg (by rw [hnd, hch]; push_cast; ring_nf; simp [Int.mul_comm])]
  rw [imputerFitTransform_ok st.strategy (ch * nd) X1 hs hne hstats]
  dsimp only
  rw [if_neg ?hxy]
  case hxy =>
    rcases hy1 : y1? with _ | y1
    · simp
    · have := hy y1 hy1
      simp [this, List.length_map, hne]
  rw [if_neg (by rw [hnd, hch]; simp)]
  rw [if_neg (by rw [hnd, hch]; simp [Int.toNat_natCast])]
  rw [hnd, hch]
  simp [Int.toNat_natCast, List.map_map, Function.comp]

/-- `_preprocess` succeeds on valid data: the output rows are the masked
rows, imputed column-wise from the masked matrix itself and laid out as
(nodes, channels). -/
lemma preprocess_ok (st : CNNState) (X : NPMat) (y? : Option (List PItem))
    (nd ch : ℕ)
    (hnd : st.n_nodes = (nd : ℤ)) (hch : st.n_channels = (ch : ℤ))
    (hcols : X.ncols = ch * nd)
    (hs : st.strategy ∈ allowedStrategies) (hne : maskedInput X.data y? ≠ [])
    (hstats : ∀ j < ch * nd, (colStat? st.strategy (getCol (maskedInput X.data y?) j)).isSome)
    (hy : ∀ y, y? = some y → (maskY y).length = (maskedInput X.data y?).length) :
    CNN.preprocess st X y? =
      .ok ((maskedInput X.data y?).map (fun r => npReshapeSwapRow
            (imputeRow (imputerStats st.strategy (ch * nd) (maskedInput X.data y?))
              (List.range (ch * nd)) r)
            ch nd), y?.map maskY) := by
  unfold CNN.preprocess
  rw [hcols]
  exact preprocessCore_ok st nd ch _ _ hnd hch hs hne hstats
    (by rintro y1 hy1
        rcases y? with _ | y
        · exact Option.noConfusion hy1
        · rw [Option.map_some'] at hy1
          injection hy1 with hy1
          subst hy1
          exact hy y rfl)

lemma maskRows_length (Xd : List (List PItem)) (y : List PItem)
    (h : Xd.length = y.length) : (maskRows Xd y).length = (maskY y).length := by
  induction Xd generalizing y with
  | nil =>
    cases y with
    | nil => rfl
    | cons a ys => exact absurd h (by simp)
  | cons r rs ih =>
    cases y with
    | nil => exact absurd h (by simp)
    | cons a ys =>
      have h' : rs.length = ys.length := by simpa using h
      cases a with
      | none => simpa [maskRows, maskY, List.filterMap_cons] using ih ys h'
      | some v => simpa [maskRows, maskY, List.filterMap_cons] using ih ys h'

lemma maskRows_congr (Xd Xd' : List (List PItem)) (y : List PItem)
    (hl : Xd.length = y.length) (hl' : Xd'.length = y.length)
    (hagree : ∀ i < y.length, (y.getD i none).isSome → Xd.getD i [] = Xd'.getD i []) :
    maskRows Xd y = maskRows Xd' y := by
  induction y generalizing Xd Xd' with
  | nil =>
    have : Xd = [] := List.length_eq_zero.mp hl
    have : Xd' = [] := List.length_eq_zero.mp hl'
    subst_vars; rfl
  | cons a ys ih =>
    cases Xd with
    | nil => exact absurd hl (by simp)
    | cons r rs =>
      cases Xd' with
      | nil => exact absurd hl' (by simp)
      | cons r' rs' =>
        have hl2 : rs.length = ys.length := by simpa using hl
        have hl2' : rs'.length = ys.length := by simpa using hl'
        have htail : maskRows rs ys = maskRows rs' ys := by
          refine ih rs rs' hl2 hl2' ?_
          intro i hi hsome
          exact hagree (i + 1) (by simpa using hi) (by simpa using hsome)
        cases a with
        | none =>
          simp only [maskRows, List.zip_cons_cons, List.filter_cons] at *
          simpa using htail
        | some v =>
          have hhead : r = r' := hagree 0 (by simp) (by simp)
          simp only [maskRows, List.zip_cons_cons, List.filter_cons] at *
          simp [hhead]
          simpa using htail

lemma maskY_length_lt (y : List PItem) (h : none ∈ y) :
    (maskY y).length < y.length := by
  induction y with
  | nil => simp at h
  | cons a ys ih =>
    cases a with
    | none =>
      have : (maskY ys).length ≤ ys.length := List.length_filterMap_le id ys
      simpa [maskY, List.filterMap_cons] using Nat.lt_succ_of_le this
    | some v =>
      have h' : none ∈ ys := by simpa using h
      simpa [maskY, List.filterMap_cons] using ih h'

lemma npReshapeSwapRow_entry (row : List ℚ) {n c nd ch : ℕ}
    (hn : n < nd) (hc : c < ch) :
    ((npReshapeSwapRow row ch nd).getD n []).getD c 0 = row.getD (c * nd + n) 0 := by
  unfold npReshapeSwapRow
  rw [getD_map_range _ hn []]
  rw [getD_map_range _ hc 0]

lemma imputeRow_range_getD (stats : List (Option ℚ)) (r : List PItem)
    {j m : ℕ} (hj : j < m) :
    (imputeRow stats (List.range m) r).getD j 0 =
      (r.getD j none).getD ((stats.getD j none).getD 0) := by
  unfold imputeRow
  rw [getD_map_range _ hj 0]

lemma flat_index_lt {n c nd ch : ℕ} (hn : n < nd) (hc : c < ch) :
    c * nd + n < ch * nd := by
  calc c * nd + n < c * nd + nd := by omega
    _ = (c + 1) * nd := by ring
    _ ≤ ch * nd := Nat.mul_le_mul_right nd hc

lemma colStat?_getD (s : String) (col : List PItem)
    (h : (colStat? s col).isSome) :
    (colStat? s col).getD 0 = npStat s (col.filterMap id) := by
  unfold colStat? at *
  by_cases he : (col.filterMap id).isEmpty
  · simp [he] at h
  · simp [he]

lemma colStat?_isSome_of_head (s : String) (r0 : List PItem)
    (rs : List (List PItem)) {j : ℕ} (hj : (r0.getD j none).isSome) :
    (colStat? s (getCol (r0 :: rs) j)).isSome := by
  unfold colStat? getCol
  rcases hv : r0.getD j none with _ | v
  · rw [hv] at hj; simp at hj
  · have hv' : r0[j]?.getD none = some v := by
      simpa [List.getD_eq_getElem?_getD] using hv
    simp [List.filterMap_cons, hv']

/-- On success, the core of `_preprocess` returns its target argument
unchanged and one output row per input row. -/
lemma preprocessCore_ok_inv (st : CNNState) (ncols : ℕ) (X1 : List (List PItem))
    (y1? : Option (List ℚ)) (out : List (List (List ℚ)) × Option (List ℚ))
    (h : preprocessCore st ncols X1 y1? = .ok out) :
    out.2 = y1? ∧ out.1.length = X1.length := by
  unfold preprocessCore at h
  split at h
  · exact absurd h (by simp)
  · split at h
    · exact absurd h (by simp)
    · next X2 nc2 heq =>
      split at h
      · exact absurd h (by simp)
      · split at h
        · exact absurd h (by simp)
        · split at h
          · exact absurd h (by simp)
          · injection h with h
            subst h
            have hx2 : X2.length = X1.length := by
              unfold imputerFitTransform at heq
              split at heq
              · exact absurd heq (by simp)
              · split at heq
                · exact absurd heq (by simp)
                · injection heq with heq
                  rw [Prod.mk.injEq] at heq
                  rw [← heq.1]
                  simp
            simp [hx2]

/-- The declared-shape check fires before anything else in `_preprocess`,
whatever the data and whether or not targets are supplied. -/
lemma preprocess_shape_error (st : CNNState) (X : NPMat) (y? : Option (List PItem))
    (h : st.n_nodes * st.n_channels ≠ (X.ncols : ℤ)) :
    CNN.preprocess st X y? =
      .error (.valueError "The product n_nodes and n_channels is not the correct shape.") := by
  unfold CNN.preprocess preprocessCore
  rw [if_pos h]

/-! ### Concrete fixtures for witnesses -/

/-- An unfitted estimator with 2 nodes and 3 channels. -/
def stBase : CNNState :=
  { n_nodes := 2, n_channels := 3, layers := 1, max_epochs := 50, batch_size := 32,
    tuner := none, test_size := 1/5, strategy := "median", random_state := 200,
    directory := none, project_name := none, is_fitted_ := false, model_ := none }

/-- A 2 x 6 feature matrix with no missing entries. -/
def Xgood : NPMat :=
  ⟨6, [[some 1, some 2, some 3, some 4, some 5, some 6],
       [some 7, some 8, some 9, some 10, some 11, some 12]]⟩

/-- A 1 x 5 feature matrix: 5 columns cannot match 2 * 3. -/
def Xbad : NPMat := ⟨5, [[some 1, some 2, some 3, some 4, some 5]]⟩

/-! ### Claims -/

/-- C1: for every 2-D feature matrix, `_preprocess` (used by both `fit`
and `predict`) checks `n_nodes * n_channels == X.shape[1]` before any
reshape: a mismatch raises the shape ValueError unconditionally, and on a
match the pipeline (imputation and reshape) completes without a shape
error on valid data. -/
theorem claim_C1 (st : CNNState) (X : NPMat) (y? : Option (List PItem)) :
    (st.n_nodes * st.n_channels ≠ (X.ncols : ℤ) →
      CNN.preprocess st X y? =
        .error (.valueError "The product n_nodes and n_channels is not the correct shape.")) ∧
    (∀ nd ch : ℕ, st.n_nodes = (nd : ℤ) → st.n_channels = (ch : ℤ) →
      X.ncols = ch * nd →
      st.strategy ∈ allowedStrategies →
      maskedInput X.data y? ≠ [] →
      (∀ j < ch * nd, (colStat? st.strategy (getCol (maskedInput X.data y?) j)).isSome) →
      (∀ y, y? = some y → (maskY y).length = (maskedInput X.data y?).length) →
      ∃ out, CNN.preprocess st X y? = .ok out) := by
  constructor
  · exact preprocess_shape_error st X y?
  · intro nd ch hnd hch hcols hs hne hstats hy
    exact ⟨_, preprocess_ok st X y? nd ch hnd hch hcols hs hne hstats hy⟩

theorem claim_C1_witness :
    CNN.preprocess stBase Xbad none =
      .error (.valueError "The product n_nodes and n_channels is not the correct shape.")
    ∧ ∃ out, CNN.preprocess stBase Xgood none = .ok out :=
  ⟨(claim_C1 stBase Xbad none).1 (by decide),
   (claim_C1 stBase Xgood none).2 2 3 rfl rfl (by decide) (by decide) (by decide)
     (by decide) (fun y hy => Option.noConfusion hy)⟩

/-- C2 (code bug evidence): whenever `y_test` contains a NaN entry and
`y_hat` has the same length, `score` masks only `y_test` and hands the
shortened vector together with the full-length `y_hat` to `r2_score`,
which rejects the inconsistent lengths — no coefficient of determination
over the remaining pairs is returned. -/
theorem claim_C2 (y_test : List PItem) (y_hat : List ℚ)
    (hlen : y_test.length = y_hat.length) (hnan : none ∈ y_test) :
    CNN.score y_test y_hat =
      .error (.valueError "Found input variables with inconsistent numbers of samples") := by
  have hlt := maskY_length_lt y_test hnan
  unfold CNN.score r2Score
  rw [if_pos (by omega)]

theorem claim_C2_witness :
    CNN.score [some 1, none, some 3] [1, 2, 3] =
      .error (.valueError "Found input variables with inconsistent numbers of samples") :=
  claim_C2 [some 1, none, some 3] [1, 2, 3] (by decide) (by decide)

/-- C5: on an estimator on which `fit` has never completed (`is_fitted_`
absent), `predict` never returns a prediction, and when preprocessing of
`X` succeeds the failure is the not-fitted error. -/
theorem claim_C5 (st : CNNState) (X : NPMat) (h : st.is_fitted_ = false) :
    (∀ v, CNN.predict st X ≠ .ok v) ∧
    (∀ r, CNN.preprocess st X none = .ok r →
      CNN.predict st X = .error .notFitted) := by
  constructor
  · intro v hok
    unfold CNN.predict at hok
    rcases hp : CNN.preprocess st X none with e | r
    · rw [hp] at hok
      exact Except.noConfusion hok
    · rw [hp] at hok
      simp [h] at hok
  · intro r hp
    unfold CNN.predict
    rw [hp]
    simp [h]

theorem claim_C5_witness :
    (CNN.predict stBase Xgood ≠ .ok []) ∧
    CNN.predict stBase Xgood = .error .notFitted :=
  ⟨(claim_C5 stBase Xgood rfl).1 [], (claim_C5 stBase Xgood rfl).2 _ rfl⟩

/-- C9: `predict` preprocesses before the fitted-state check, so on an
unfitted estimator a column-count mismatch surfaces as the shape
ValueError, and the not-fitted error is raised exactly when preprocessing
succeeds. -/
theorem claim_C9 (st : CNNState) (X : NPMat) (h : st.is_fitted_ = false) :
    (st.n_nodes * st.n_channels ≠ (X.ncols : ℤ) →
      CNN.predict st X =
        .error (.valueError "The product n_nodes and n_channels is not the correct shape.")) ∧
    (∀ r, CNN.preprocess st X none = .ok r →
      CNN.predict st X = .error .notFitted) := by
  constructor
  · intro hm
    unfold CNN.predict
    rw [preprocess_shape_error st X none hm]
  · intro r hp
    unfold CNN.predict
    rw [hp]
    simp [h]

theorem claim_C9_witness :
    CNN.predict stBase Xbad =
      .error (.valueError "The product n_nodes and n_channels is not the correct shape.")
    ∧ CNN.predict stBase Xgood = .error .notFitted :=
  ⟨(claim_C9 stBase Xbad rfl).1 (by decide), (claim_C9 stBase Xgood rfl).2 _ rfl⟩

/-- Construction with the source defaults everywhere except `strategy`. -/
def initWithStrategy (v : PyVal) : Except Err CNNState :=
  CNN.init (.vint 100) (.vint 5) (.vint 50) (.vint 32) .vnone (.vint 1)
    (.vfloat (1/5)) v (.vint 200) none none

/-- Construction with the source defaults everywhere except `test_size`. -/
def initWithTestSize (v : PyVal) : Except Err CNNState :=
  CNN.init (.vint 100) (.vint 5) (.vint 50) (.vint 32) .vnone (.vint 1)
    v (.vstr "median") (.vint 200) none none

/-- C6: at construction, a non-string `strategy` raises TypeError, a
string other than median/mean/knn raises ValueError, and exactly those
three strings are accepted (and stored). -/
theorem claim_C6 (v : PyVal) :
    (v.asStr? = none →
      initWithStrategy v = .error (.typeError "Parameter strategy must be a string.")) ∧
    (∀ s, v = .vstr s → s ∉ (["median", "mean", "knn"] : List String) →
      initWithStrategy v =
        .error (.valueError "Parameter strategy must be median, mean, or knn.")) ∧
    (∀ s, v = .vstr s → s ∈ (["median", "mean", "knn"] : List String) →
      ∃ st, initWithStrategy v = .ok st ∧ st.strategy = s) := by
  refine ⟨?_, ?_, ?_⟩
  · intro h
    unfold initWithStrategy CNN.init
    simp only [PyVal.asPyInt?, PyVal.asTuner?, PyVal.asFloat?]
    rw [h]
  · intro s hv hs
    subst hv
    unfold initWithStrategy CNN.init
    simp only [PyVal.asPyInt?, PyVal.asTuner?, PyVal.asFloat?, PyVal.asStr?]
    rw [if_neg hs]
  · intro s hv hs
    subst hv
    unfold initWithStrategy CNN.init
    simp only [PyVal.asPyInt?, PyVal.asTuner?, PyVal.asFloat?, PyVal.asStr?]
    rw [if_pos hs]
    exact ⟨_, rfl, rfl⟩

theorem claim_C6_witness :
    initWithStrategy .vnone = .error (.typeError "Parameter strategy must be a string.")
    ∧ initWithStrategy (.vstr "mode") =
        .error (.valueError "Parameter strategy must be median, mean, or knn.")
    ∧ ∃ st, initWithStrategy (.vstr "knn") = .ok st ∧ st.strategy = "knn" :=
  ⟨(claim_C6 .vnone).1 rfl,
   (claim_C6 (.vstr "mode")).2.1 "mode" rfl (by decide),
   (claim_C6 (.vstr "knn")).2.2 "knn" rfl (by decide)⟩

/-- C7 counterexample: the claim says every float outside (0, 1) is
rejected at construction, but constructing with `test_size = 5.0`
succeeds — the constructor checks only `isinstance(test_size, float)`. -/
theorem claim_C7_counterexample :
    ∃ st, initWithTestSize (.vfloat 5) = .ok st ∧ st.test_size = 5 :=
  ⟨_, rfl, rfl⟩

/-- C7 (amended): at construction `test_size` is validated for type only:
every non-float is rejected with a TypeError, and every float — inside or
outside (0, 1) — is accepted and stored. -/
theorem claim_C7 (v : PyVal) :
    (v.asFloat? = none →
      initWithTestSize v = .error (.typeError "Parameter test_size must be a float.")) ∧
    (∀ q, v = .vfloat q → ∃ st, initWithTestSize v = .ok st ∧ st.test_size = q) := by
  constructor
  · intro h
    unfold initWithTestSize CNN.init
    simp only [PyVal.asPyInt?, PyVal.asTuner?]
    rw [h]
  · intro q hv
    subst hv
    unfold initWithTestSize CNN.init
    simp only [PyVal.asPyInt?, PyVal.asTuner?, PyVal.asFloat?, PyVal.asStr?]
    exact ⟨_, rfl, rfl⟩

theorem claim_C7_witness :
    initWithTestSize (.vint 1) = .error (.typeError "Parameter test_size must be a float.")
    ∧ ∃ st, initWithTestSize (.vfloat 7) = .ok st ∧ st.test_size = 7 :=
  ⟨(claim_C7 (.vint 1)).1 rfl, (claim_C7 (.vfloat 7)).2 7 rfl⟩

/-- C8: tuner selection in `fit` is total over the `tuner` parameter:
`None` takes the hand-specified basic-architecture path, each of the three
recognized strings instantiates the corresponding tuner class, and any
other string is rejected with the `_get_tuner` ValueError during `fit`. -/
theorem claim_C8 (tm : Model) (split : SplitFn) (st : CNNState) (X : NPMat)
    (y : List PItem) (out : List (List (List ℚ)) × Option (List ℚ))
    (hpre : CNN.preprocess st X (some y) = .ok out) :
    (st.tuner = none → ∃ st2, CNN.fit tm split st X y = .ok (st2, .basic)) ∧
    (st.tuner = some "hyperband" →
      ∃ st2, CNN.fit tm split st X y = .ok (st2, .tuned .hyperband)) ∧
    (st.tuner = some "bayesian" →
      ∃ st2, CNN.fit tm split st X y = .ok (st2, .tuned .bayesian)) ∧
    (st.tuner = some "random" →
      ∃ st2, CNN.fit tm split st X y = .ok (st2, .tuned .random)) ∧
    (∀ s, st.tuner = some s → s ≠ "hyperband" → s ≠ "bayesian" → s ≠ "random" →
      CNN.fit tm split st X y =
        .error (.valueError "tuner parameter expects hyperband, bayesian, or random")) := by
  obtain ⟨X3, y1?⟩ := out
  unfold CNN.fit
  rw [hpre]
  dsimp only
  refine ⟨?_, ?_, ?_, ?_, ?_⟩
  · intro h; rw [h]; exact ⟨_, rfl⟩
  · intro h; rw [h]; exact ⟨_, rfl⟩
  · intro h; rw [h]; exact ⟨_, rfl⟩
  · intro h; rw [h]; exact ⟨_, rfl⟩
  · intro s h h1 h2 h3
    rw [h]
    dsimp only
    unfold ModelBuilder.getTuner
    dsimp only
    rw [if_neg h1, if_neg h2, if_neg h3]

theorem claim_C8_witness :
    (∃ st2, CNN.fit (fun _ => []) (fun a _ _ _ => (a, a, [], [])) stBase Xgood
        [some 1, some 2] = .ok (st2, .basic))
    ∧ CNN.fit (fun _ => []) (fun a _ _ _ => (a, a, [], []))
        { stBase with tuner := some "grid" } Xgood [some 1, some 2] =
      .error (.valueError "tuner parameter expects hyperband, bayesian, or random") :=
  ⟨((claim_C8 _ _ stBase Xgood [some 1, some 2] _ rfl).1 rfl),
   ((claim_C8 _ _ { stBase with tuner := some "grid" } Xgood [some 1, some 2] _ rfl).2.2.2.2
      "grid" rfl (by decide) (by decide) (by decide))⟩

/-- C4: rows whose target is NaN are removed from both `X` and `y` before
the imputer is fit, so the whole result of preprocessing — imputer column
statistics included — is unchanged by the contents of the removed feature
rows; the surviving targets are exactly the non-NaN ones and the output
has one row per surviving target. -/
theorem claim_C4 (st : CNNState) (X X' : NPMat) (y : List PItem)
    (hnc : X.ncols = X'.ncols) (hlen : X.data.length = y.length)
    (hlen' : X'.data.length = y.length)
    (hagree : ∀ i < y.length, (y.getD i none).isSome →
      X.data.getD i [] = X'.data.getD i []) :
    CNN.preprocess st X (some y) = CNN.preprocess st X' (some y)
    ∧ ∀ out, CNN.preprocess st X (some y) = .ok out →
        out.2 = some (maskY y) ∧ out.1.length = (maskY y).length := by
  have hmask : maskRows X.data y = maskRows X'.data y :=
    maskRows_congr X.data X'.data y hlen hlen' hagree
  constructor
  · unfold CNN.preprocess
    rw [hnc]
    simp only [maskedInput]
    rw [hmask]
  · intro out h
    unfold CNN.preprocess at h
    have hinv := preprocessCore_ok_inv st X.ncols _ _ out h
    refine ⟨by simpa using hinv.1, ?_⟩
    rw [hinv.2]
    simp only [maskedInput]
    exact maskRows_length X.data y hlen

/-- A variant of `Xgood` whose second row (the row whose target is NaN in
the C4 witness) holds entirely different values. -/
def Xalt : NPMat :=
  ⟨6, [[some 1, some 2, some 3, some 4, some 5, some 6],
       [some 100, none, some 300, some 400, some 500, some 600]]⟩

theorem claim_C4_witness :
    CNN.preprocess stBase Xgood (some [some 1, none]) =
      CNN.preprocess stBase Xalt (some [some 1, none])
    ∧ (some [(1 : ℚ)] = some (maskY [some 1, none])
        ∧ (1 : ℕ) = (maskY [some 1, none]).length) :=
  ⟨(claim_C4 stBase Xgood Xalt [some 1, none] rfl rfl rfl (by decide)).1,
   (claim_C4 stBase Xgood Xalt [some 1, none] rfl rfl rfl (by decide)).2
     ([[[1, 3, 5], [2, 4, 6]]], some [1]) rfl⟩

/-- Each entry of each row is present (no NaN) — under this hypothesis the
imputer is the identity on the matrix. -/
def allPresent (Xd : List (List PItem)) : Prop :=
  ∀ r ∈ Xd, ∀ o ∈ r, o.isSome

instance (Xd : List (List PItem)) : Decidable (allPresent Xd) := by
  unfold allPresent; infer_instance

/-- Every column statistic is defined as soon as the (nonempty) matrix has
a present entry at the head row of each column. -/
lemma stats_some_of_allPresent (s : String) (X : NPMat) (m : ℕ)
    (hcols : X.ncols = m) (hwf : X.WF) (hne : X.data ≠ [])
    (hall : allPresent X.data) :
    ∀ j < m, (colStat? s (getCol X.data j)).isSome := by
  intro j hj
  rcases hXd : X.data with _ | ⟨r0, rs⟩
  · exact absurd hXd hne
  · have hr0 : r0 ∈ X.data := by rw [hXd]; exact List.mem_cons_self r0 rs
    have hlen : r0.length = m := by rw [hwf r0 hr0, hcols]
    have hjlt : j < r0.length := by omega
    have hmem : r0.getD j none ∈ r0 := getD_mem r0 hjlt none
    have hsome : (r0.getD j none).isSome := hall r0 hr0 _ hmem
    exact colStat?_isSome_of_head s r0 rs hsome

/-- C3: on a matrix with exactly `n_nodes * n_channels` columns (and no
missing entries, so imputation does not alter values), the preprocessing
reshape yields a (samples, nodes, channels) tensor whose (i, n, c) entry
is the entry of `X` at row i, flat column `c * n_nodes + n`: the flat
matrix is read as (samples, channels, nodes) and axes 1 and 2 swapped. -/
theorem claim_C3 (st : CNNState) (X : NPMat) (nd ch : ℕ)
    (hnd : st.n_nodes = (nd : ℤ)) (hch : st.n_channels = (ch : ℤ))
    (hcols : X.ncols = ch * nd) (hwf : X.WF) (hne : X.data ≠ [])
    (hs : st.strategy ∈ allowedStrategies) (hall : allPresent X.data) :
    ∃ X3, CNN.preprocess st X none = .ok (X3, none) ∧
      ∀ i n c, i < X.data.length → n < nd → c < ch →
        ((X3.getD i []).getD n []).getD c 0 =
          ((X.data.getD i []).getD (c * nd + n) none).getD 0 := by
  have hstats := stats_some_of_allPresent st.strategy X (ch * nd) hcols hwf hne hall
  have hpre := preprocess_ok st X none nd ch hnd hch hcols hs
    (by simpa [maskedInput] using hne)
    (by simpa [maskedInput] using hstats)
    (fun y hy => Option.noConfusion hy)
  simp only [maskedInput, Option.map_none'] at hpre
  refine ⟨_, hpre, ?_⟩
  intro i n c hi hn hc
  have hj : c * nd + n < ch * nd := flat_index_lt hn hc
  rw [getD_map_of_lt _ X.data hi [] []]
  rw [npReshapeSwapRow_entry _ hn hc]
  rw [imputeRow_range_getD _ _ hj]
  have hrmem : X.data.getD i [] ∈ X.data := getD_mem X.data hi []
  have hrlen : (X.data.getD i []).length = ch * nd := by
    rw [hwf _ hrmem, hcols]
  have hjlt : c * nd + n < (X.data.getD i []).length := by omega
  have hentry : (X.data.getD i []).getD (c * nd + n) none ∈ X.data.getD i [] :=
    getD_mem _ hjlt none
  have hsome := hall _ hrmem _ hentry
  obtain ⟨v, hv⟩ := Option.isSome_iff_exists.mp hsome
  rw [hv]
  rfl

theorem claim_C3_witness :
    ∃ X3, CNN.preprocess stBase Xgood none = .ok (X3, none) ∧
      ∀ i n c, i < Xgood.data.length → n < 2 → c < 3 →
        ((X3.getD i []).getD n []).getD c 0 =
          ((Xgood.data.getD i []).getD (c * 2 + n) none).getD 0 :=
  claim_C3 stBase Xgood 2 3 rfl rfl (by decide) (by decide) (by decide)
    (by decide) (by decide)

/-- C10: `_preprocess` fits a fresh imputer on the given `X` itself every
time it is called — also inside `predict`: a missing feature at flat
column j of a prediction batch is replaced by that batch's own column-j
statistic, and preprocessing depends on no state beyond `n_nodes`,
`n_channels` and `strategy` (in particular not on anything recorded by
`fit`). -/
theorem claim_C10 (st : CNNState) (X : NPMat) (nd ch : ℕ) (m : Model)
    (hnd : st.n_nodes = (nd : ℤ)) (hch : st.n_channels = (ch : ℤ))
    (hcols : X.ncols = ch * nd) (hne : X.data ≠ [])
    (hs : st.strategy ∈ allowedStrategies)
    (hstats : ∀ j < ch * nd, (colStat? st.strategy (getCol X.data j)).isSome)
    (hfit : st.is_fitted_ = true) (hm : st.model_ = some m) :
    ∃ X3, CNN.predict st X = .ok (m X3) ∧
      (∀ i n c, i < X.data.length → n < nd → c < ch →
        (X.data.getD i []).getD (c * nd + n) none = none →
        ((X3.getD i []).getD n []).getD c 0 =
          npStat st.strategy ((getCol X.data (c * nd + n)).filterMap id)) ∧
      (∀ st' : CNNState, st'.n_nodes = st.n_nodes → st'.n_channels = st.n_channels →
        st'.strategy = st.strategy →
        CNN.preprocess st' X none = CNN.preprocess st X none) := by
  have hpre := preprocess_ok st X none nd ch hnd hch hcols hs
    (by simpa [maskedInput] using hne)
    (by simpa [maskedInput] using hstats)
    (fun y hy => Option.noConfusion hy)
  simp only [maskedInput, Option.map_none'] at hpre
  refine ⟨X.data.map (fun r => npReshapeSwapRow
      (imputeRow (imputerStats st.strategy (ch * nd) X.data) (List.range (ch * nd)) r)
      ch nd), ?_, ?_, ?_⟩
  · unfold CNN.predict
    rw [hpre, hfit, hm]
    rfl
  · intro i n c hi hn hc hmiss
    have hj : c * nd + n < ch * nd := flat_index_lt hn hc
    rw [getD_map_of_lt _ X.data hi [] []]
    rw [npReshapeSwapRow_entry _ hn hc]
    rw [imputeRow_range_getD _ _ hj]
    rw [hmiss]
    rw [imputerStats_getD st.strategy (ch * nd) X.data hj]
    rw [colStat?_getD st.strategy (getCol X.data (c * nd + n)) (hstats _ hj)]
    rfl
  · intro st' h1 h2 h3
    simp only [CNN.preprocess, preprocessCore, h1, h2, h3]

/-- A constant model standing in for the trained network in witnesses. -/
def mFit : Model := fun _ => [42]

/-- A fitted copy of `stBase` holding `mFit`. -/
def stFit : CNNState := { stBase with is_fitted_ := true, model_ := some mFit }

/-- A 2 x 6 feature matrix with one missing entry (row 0, column 1). -/
def Xmiss : NPMat :=
  ⟨6, [[some 1, none, some 3, some 4, some 5, some 6],
       [some 7, some 8, some 9, some 10, some 11, some 12]]⟩

theorem claim_C10_witness :
    ∃ X3, CNN.predict stFit Xmiss = .ok (mFit X3) ∧
      (∀ i n c, i < Xmiss.data.length → n < 2 → c < 3 →
        (Xmiss.data.getD i []).getD (c * 2 + n) none = none →
        ((X3.getD i []).getD n []).getD c 0 =
          npStat stFit.strategy ((getCol Xmiss.data (c * 2 + n)).filterMap id)) ∧
      (∀ st' : CNNState, st'.n_nodes = stFit.n_nodes →
        st'.n_channels = stFit.n_channels → st'.strategy = stFit.strategy →
        CNN.preprocess st' Xmiss none = CNN.preprocess stFit Xmiss none) :=
  claim_C10 stFit Xmiss 2 3 mFit rfl rfl (by decide) (by decide)
    (by decide) (by decide) rfl rfl

end AFQ
